import Mathlib

/-!
Verification of the QuickBooks multi-location revenue aggregation core of the
medrock-accounting repository.

The embedding translates the TypeScript sources
(`src/lib/quickbooks-multi.ts` and the marketer-profitability API route) into
executable Lean definitions:

* JavaScript `Date` objects (always constructed at midnight) are modelled as
  integer day numbers (days since 1970-01-01), exactly the ECMAScript
  `MakeDay`/`Day` representation restricted to whole days; the civil-calendar
  conversions follow the standard era-based algorithms the engines implement.
  The embedding works in a fixed UTC timezone, so `getFullYear`/`getMonth`/
  `getDate` are the civil fields of the day number.
* JavaScript numbers that originate in JSON money columns are modelled as
  rationals (`Rat`); `parseFloat` is modelled as an optional rational,
  `none` playing the role of `NaN`.
* `throw` is modelled with `Except`, mutable stores by explicit state passing.
-/

namespace MedRock

/-- A JavaScript `Date` at midnight: the day number (days since 1970-01-01). -/
abbrev JSDate := Int

/-- Day number of a civil date (`m` is 1-based, `d` 1-based); the standard
era-based algorithm used by ECMAScript `MakeDay`. -/
def daysFromCivil (y m d : Int) : Int :=
  let y1 : Int := if m ≤ 2 then y - 1 else y
  let era : Int := Int.fdiv y1 400
  let yoe : Int := y1 - era * 400
  let mp : Int := if m > 2 then m - 3 else m + 9
  let doy : Int := (153 * mp + 2) / 5 + d - 1
  let doe : Int := yoe * 365 + yoe / 4 - yoe / 100 + doy
  era * 146097 + doe - 719468

/-- Civil date (year, 1-based month, day) of a day number; inverse of
`daysFromCivil` on valid civil dates. -/
def civilFromDays (z0 : Int) : Int × Int × Int :=
  let z := z0 + 719468
  let era : Int := Int.fdiv z 146097
  let doe : Int := z - era * 146097
  let yoe : Int := (doe - doe / 1460 + doe / 36524 - doe / 146096) / 365
  let y1 : Int := yoe + era * 400
  let doy : Int := doe - (365 * yoe + yoe / 4 - yoe / 100)
  let mp : Int := (5 * doy + 2) / 153
  let d : Int := doy - (153 * mp + 2) / 5 + 1
  let m : Int := if mp < 10 then mp + 3 else mp - 9
  (if m ≤ 2 then y1 + 1 else y1, m, d)

/-- `new Date(y, m, d)` with `m` 0-based, including the ECMAScript
normalisation of out-of-range month and day values (e.g. day 0 is the last
day of the previous month). -/
def mkDate (y m d : Int) : JSDate :=
  let ym : Int := y * 12 + m
  let y1 : Int := Int.fdiv ym 12
  let m1 : Int := ym - y1 * 12
  daysFromCivil y1 (m1 + 1) 1 + (d - 1)

/-- `Date.prototype.getFullYear`. -/
def getFullYear (t : JSDate) : Int := (civilFromDays t).1

/-- `Date.prototype.getMonth` (0-based month). -/
def getMonth (t : JSDate) : Int := (civilFromDays t).2.1 - 1

/-- `Date.prototype.getDate` (day of month). -/
def getDate (t : JSDate) : Int := (civilFromDays t).2.2

/-- `String.prototype.padStart(2, '0')` applied to a rendered number. -/
def padStart2 (s : String) : String :=
  if s.length ≥ 2 then s else if s.length = 1 then "0" ++ s else "00"

/-- `formatDate` from `quickbooks-multi.ts`: renders a date as `YYYY-MM-DD`. -/
def formatDate (t : JSDate) : String :=
  toString (getFullYear t) ++ "-" ++ padStart2 (toString (getMonth t + 1)) ++ "-"
    ++ padStart2 (toString (getDate t))

/-- One element of the array returned by `generatePeriods`
(`{ start, end, label }`; `end` is a Lean keyword, hence `end_`). -/
structure PeriodWindow where
  start : String
  end_ : String
  label : String
deriving Repr, DecidableEq

/-- The period label computed inside the `generatePeriods` loop from the
cursor's year and 0-based month (the three `label = ...` assignments of
`quickbooks-multi.ts`, one per granularity; any unknown granularity falls
into the monthly branch exactly as the `if`/`else` chain does). -/
def labelFor (granularity : String) (year month : Int) : String :=
  if granularity = "yearly" then
    toString year
  else if granularity = "quarterly" then
    toString year ++ "-Q" ++ toString (Int.fdiv month 3 + 1)
  else
    toString year ++ "-" ++ padStart2 (toString (month + 1))

/-- Loop body of `generatePeriods`, fuelled for termination.  Mirrors the
source statement for statement: the cursor `current` is reassigned to the
first day of the next unit *before* the window is pushed, so the pushed
`start` field reads the already-advanced cursor (`next` below), exactly as
the TypeScript does. -/
def generatePeriodsAux (granularity : String) (startD endD : JSDate) :
    Nat → JSDate → List PeriodWindow
  | 0, _ => []
  | Nat.succ fuel, current =>
    if current ≤ endD then
      let year := getFullYear current
      let month := getMonth current
      let label := labelFor granularity year month
      let pe : JSDate :=
        if granularity = "yearly" then mkDate year 11 31
        else if granularity = "quarterly" then
          mkDate year (Int.fdiv month 3 * 3 + 3) 0
        else mkDate year (month + 1) 0
      let next : JSDate :=
        if granularity = "yearly" then mkDate (year + 1) 0 1
        else if granularity = "quarterly" then
          mkDate year (Int.fdiv month 3 * 3 + 3) 1
        else mkDate year (month + 1) 1
      let periodEnd := if pe > endD then endD else pe
      let w : PeriodWindow :=
        { start := formatDate (if next < startD then startD else next)
          end_ := formatDate periodEnd
          label := label }
      if periodEnd ≥ endD then [w]
      else w :: generatePeriodsAux granularity startD endD fuel next
    else []

/-- `generatePeriods(startDate, endDate, granularity)` from
`quickbooks-multi.ts`.  The date strings have already been parsed to day
numbers.  The fuel bounds the loop by the number of days in the range, which
the cursor strictly exceeds after that many iterations (it advances by at
least one day per iteration). -/
def generatePeriods (startDate endDate : JSDate) (granularity : String) :
    List PeriodWindow :=
  generatePeriodsAux granularity startDate endDate
    ((endDate - startDate).toNat + 2) startDate

/-- `getPeriodKey(year, month, granularity)` from the marketer-profitability
route (`month` is 1-based, as stored in the internal ledger).  `Math.ceil` on
the rational `month / 3` is the integer ceiling, written here as a floor
division; the `default` case of the `switch` renders the monthly key for any
unrecognised granularity. -/
def getPeriodKey (year month : Int) (granularity : String) : String :=
  if granularity = "yearly" then
    toString year
  else if granularity = "quarterly" then
    toString year ++ "-Q" ++ toString (Int.fdiv (month + 2) 3)
  else
    toString year ++ "-" ++ padStart2 (toString month)

/-! ## Report extractor (`extractRevenueFromReport` / `extractCOGSFromReport`) -/

/-- Does `sub` occur as a prefix of `s` (on character lists)? -/
def startsWithL : List Char → List Char → Bool
  | _, [] => true
  | [], _ :: _ => false
  | c :: cs, d :: ds => c = d && startsWithL cs ds

/-- Does `sub` occur as a contiguous substring of `s` (on character lists)? -/
def containsL : List Char → List Char → Bool
  | [], sub => sub.isEmpty
  | c :: cs, sub => startsWithL (c :: cs) sub || containsL cs sub

/-- `String.prototype.includes`. -/
def jsIncludes (s sub : String) : Bool :=
  containsL s.toList sub.toList

/-- JavaScript `x || d` for an optional string `x`: the default is taken when
`x` is `undefined` or the empty string (both falsy). -/
def jsOrString (o : Option String) (d : String) : String :=
  match o with
  | none => d
  | some s => if s = "" then d else s

/-- `parseFloat` restricted to the decimal forms the QuickBooks report emits
(optional sign, integer digits, optional fractional digits); `none` models
`NaN` for strings with no leading number.  Exponent and `Infinity` forms are
not produced by the report and are parsed as `NaN` here. -/
def jsParseFloat (s : String) : Option Rat :=
  let cs := s.toList.dropWhile (fun c => c.isWhitespace)
  let signAndRest : Bool × List Char :=
    match cs with
    | '-' :: rest => (true, rest)
    | '+' :: rest => (false, rest)
    | _ => (false, cs)
  let neg := signAndRest.1
  let cs1 := signAndRest.2
  let intPart := cs1.takeWhile (fun c => c.isDigit)
  let rest1 := cs1.dropWhile (fun c => c.isDigit)
  let fracPart : List Char :=
    match rest1 with
    | '.' :: r => r.takeWhile (fun c => c.isDigit)
    | _ => []
  if intPart.isEmpty && fracPart.isEmpty then none
  else
    let ip : Nat := intPart.foldl (fun acc c => acc * 10 + (c.toNat - 48)) 0
    let fp : Nat := fracPart.foldl (fun acc c => acc * 10 + (c.toNat - 48)) 0
    let mag : Rat := (ip : Rat) + (fp : Rat) / ((10 : Rat) ^ fracPart.length)
    some (if neg then -mag else mag)

/-- One `ColData` cell of the report: `{ value?: string }`. -/
structure ColData where
  value : Option String
deriving Repr, DecidableEq

/-- A section header: `{ ColData?: ColData[] }`. -/
structure RowHeader where
  ColData : Option (List ColData)
deriving Repr, DecidableEq

/-- A section summary: `{ ColData?: ColData[] }`. -/
structure RowSummary where
  ColData : Option (List ColData)
deriving Repr, DecidableEq

/-- One row of the profit-and-loss report tree. -/
structure ReportRow where
  group : Option String
  Header : Option RowHeader
  Summary : Option RowSummary
deriving Repr, DecidableEq

/-- `{ Row?: ReportRow[] }`. -/
structure ReportRows where
  Row : Option (List ReportRow)
deriving Repr, DecidableEq

/-- The report tree: `{ Rows?: { Row?: ReportRow[] } }`. -/
structure Report where
  Rows : Option ReportRows
deriving Repr, DecidableEq

/-- `report?.Rows?.Row || []`. -/
def rowsOf (report : Report) : List ReportRow :=
  (report.Rows.bind ReportRows.Row).getD []

/-- `row.Header?.ColData?.[0]?.value`. -/
def headerFirstColValue (row : ReportRow) : Option String :=
  ((row.Header.bind RowHeader.ColData).bind List.head?).bind ColData.value

/-- The `find` predicate of `extractRevenueFromReport`: group is `Income`, or
the header's first column mentions `Income` or `Revenue` (optional chaining
makes a missing header falsy). -/
def isIncomeRow (row : ReportRow) : Bool :=
  row.group == some "Income"
    || ((headerFirstColValue row).map (fun v => jsIncludes v "Income")).getD false
    || ((headerFirstColValue row).map (fun v => jsIncludes v "Revenue")).getD false

/-- The `find` predicate of `extractCOGSFromReport`. -/
def isCOGSRow (row : ReportRow) : Bool :=
  row.group == some "COGS"
    || ((headerFirstColValue row).map
          (fun v => jsIncludes v "Cost of Goods Sold")).getD false

/-- `ColData[ColData.length - 1]?.value || '0'` — the last summary column's
value, defaulting to `"0"` when the array is empty or the cell has no value.
(In JavaScript an empty array indexes at `-1`, yielding `undefined`, which the
`||` turns into `'0'`; `Nat` truncated subtraction makes `0 - 1 = 0` index an
empty list, yielding `none`, the same outcome.) -/
def lastColValue (cols : List ColData) : String :=
  jsOrString ((cols[cols.length - 1]?).bind ColData.value) "0"

/-- `extractRevenueFromReport` from `quickbooks-multi.ts`.  The result is an
optional rational standing for a JavaScript number (`none` = `NaN`).  The
`try`/`catch` of the source can only fire on values outside the report shape
modelled here, in which case it also returns `0`. -/
def extractRevenueFromReport (report : Report) : Option Rat :=
  match (rowsOf report).find? isIncomeRow with
  | none => some 0
  | some incomeSection =>
    match incomeSection.Summary.bind RowSummary.ColData with
    | none => some 0
    | some cols => jsParseFloat (lastColValue cols)

/-- `extractCOGSFromReport` from `quickbooks-multi.ts`. -/
def extractCOGSFromReport (report : Report) : Option Rat :=
  match (rowsOf report).find? isCOGSRow with
  | none => some 0
  | some cogsSection =>
    match cogsSection.Summary.bind RowSummary.ColData with
    | none => some 0
    | some cols => jsParseFloat (lastColValue cols)

/-! ## Token store (`refreshAccessToken`, `storeTokens`, `getValidTokens`) -/

/-- The in-memory `QuickBooksTokens` object.  `expires_at` is a Unix
timestamp in milliseconds (an integer here; every value the code computes is
one). -/
structure QuickBooksTokens where
  access_token : String
  refresh_token : String
  expires_at : Int
  realm_id : String
  location : String
  company_name : Option String
deriving Repr, DecidableEq

/-- One row of the `amy_quickbooks_tokens` table as written by
`storeTokens` (the ISO `expires_at`/`updated_at` strings are modelled by the
timestamps they denote). -/
structure TokenRow where
  location : String
  access_token : String
  refresh_token : String
  expires_at : Int
  realm_id : String
  company_name : Option String
  updated_at : Int
deriving Repr, DecidableEq

/-- The body of a successful token-endpoint response used by
`refreshAccessToken` (`expires_in` in seconds). -/
structure RefreshResponse where
  access_token : String
  refresh_token : String
  expires_in : Int
deriving Repr, DecidableEq

/-- `LOCATION_MAPPING` (internal name to QuickBooks company name); `none`
models an `undefined` lookup for an unknown location. -/
def LOCATION_MAPPING (location : String) : Option String :=
  if location = "MedRock FL" then some "Medrock FLORIDA"
  else if location = "MedRock TN" then some "Medrock TENNESSEE"
  else if location = "MedRock TX" then some "Medrock TEXAS"
  else none

/-- JavaScript `x || d` on two optional strings (`company_name ||
LOCATION_MAPPING[location]`). -/
def jsOrOptString (o d : Option String) : Option String :=
  match o with
  | none => d
  | some s => if s = "" then d else some s

/-- `refreshAccessToken(refreshToken, location)` on a successful exchange:
the object built from the response at current time `now`.  Note the source
sets `realm_id: ''` (the comment says "Keep existing realm_id from DB") and
produces no `company_name`. -/
def refreshAccessToken (resp : RefreshResponse) (now : Int) (location : String) :
    QuickBooksTokens :=
  { access_token := resp.access_token
    refresh_token := resp.refresh_token
    expires_at := now + resp.expires_in * 1000
    realm_id := ""
    location := location
    company_name := none }

/-- `storeTokens(tokens)`: the row upserted (keyed by location) at current
time `now`. -/
def storeTokens (tokens : QuickBooksTokens) (now : Int) : TokenRow :=
  { location := tokens.location
    access_token := tokens.access_token
    refresh_token := tokens.refresh_token
    expires_at := tokens.expires_at
    realm_id := tokens.realm_id
    company_name := jsOrOptString tokens.company_name (LOCATION_MAPPING tokens.location)
    updated_at := now }

/-- The in-memory object `getValidTokens` builds from a fetched row (the
source object literal carries no `company_name`). -/
def tokensOfRow (row : TokenRow) : QuickBooksTokens :=
  { access_token := row.access_token
    refresh_token := row.refresh_token
    expires_at := row.expires_at
    realm_id := row.realm_id
    location := row.location
    company_name := none }

/-- Result of one `getValidTokens` call: the returned value, the stored row
for this location afterwards, and whether a refresh round trip happened. -/
structure GetValidResult where
  result : Option QuickBooksTokens
  stored : Option TokenRow
  didRefresh : Bool
deriving Repr, DecidableEq

/-- `getValidTokens(location)`, with the mutable store made explicit:
`stored` is the row currently persisted for `location` (`none` when the
select fails), `now` the current time, and `resp` the body the token
endpoint would answer with if a refresh is attempted (the success path; a
failed refresh throws out of the function and persists nothing). -/
def getValidTokens (stored : Option TokenRow) (now : Int)
    (resp : RefreshResponse) (location : String) : GetValidResult :=
  match stored with
  | none => ⟨none, none, false⟩
  | some row =>
    let tokens := tokensOfRow row
    if tokens.expires_at < now + 5 * 60 * 1000 then
      let refreshed0 := refreshAccessToken resp now location
      let refreshed := { refreshed0 with realm_id := tokens.realm_id }
      ⟨some refreshed, some (storeTokens refreshed now), true⟩
    else
      ⟨some tokens, some row, false⟩

/-! ## Report fetcher (`qbRequest`) -/

/-- The message of the error `qbRequest` throws on a non-2xx response. -/
def qbErrorMessage (location : String) (status : Int) (body : String) : String :=
  "QB API error for " ++ location ++ ": " ++ toString status ++ " " ++ body

/-- `Response.ok`: status in the inclusive range 200–299. -/
def responseOk (status : Int) : Bool :=
  decide (200 ≤ status ∧ status ≤ 299)

/-- The response handling of `qbRequest` (`if (!response.ok) throw new
Error(...)` else parse): given the HTTP status, the response text and the
parsed JSON payload, the call's outcome.  JavaScript exceptions are modelled
by `Except` with the thrown `Error`'s message. -/
def qbRequestHandle (location : String) (status : Int) (body : String)
    (json : α) : Except String α :=
  if responseOk status then Except.ok json
  else Except.error (qbErrorMessage location status body)

/-! ## Multi-location aggregation (`getRevenueAllLocations`) -/

/-- One element of the array `getRevenueByPeriod` resolves with. -/
structure PeriodFinancials where
  period : String
  revenue : Rat
  cost_of_goods : Rat
  gross_profit : Rat
deriving Repr, DecidableEq

/-- `getRevenueAllLocations(params)`: `locations` is what
`getConnectedLocations` returned and `fetch` the outcome of
`getRevenueByPeriod` for each location (`Except.error` models a throw from
the token store or the report fetcher).  The `try`/`catch` per location
stores `[]` for a failed location and the resolved data otherwise. -/
def getRevenueAllLocations (locations : List String)
    (fetch : String → Except String (List PeriodFinancials)) :
    List (String × List PeriodFinancials) :=
  locations.map (fun location =>
    (location,
      match fetch location with
      | Except.ok revenue => revenue
      | Except.error _ => []))

/-! ## Response cache (`qbCache`, `getCachedQBData`, `setCachedQBData`) -/

/-- `CacheEntry { data, timestamp }`, polymorphic in the cached payload. -/
structure CacheEntry (α : Type) where
  data : α
  timestamp : Int
deriving Repr, DecidableEq

/-- The backing `Map<string, CacheEntry>`: an insertion-ordered association
list with unique keys, which is how a JavaScript `Map` iterates. -/
abbrev CacheMap (α : Type) := List (String × CacheEntry α)

/-- `CACHE_TTL_MS` (one hour). -/
def CACHE_TTL_MS : Int := 60 * 60 * 1000

/-- `getCacheKey(location, startDate, endDate, granularity)`. -/
def getCacheKey (location : Option String) (startDate endDate granularity : String) :
    String :=
  (jsOrString location "all") ++ ":" ++ startDate ++ ":" ++ endDate ++ ":" ++ granularity

/-- `Map.prototype.get`. -/
def mapGet (m : CacheMap α) (key : String) : Option (CacheEntry α) :=
  (m.find? (fun e => e.1 == key)).map Prod.snd

/-- `Map.prototype.set`: replaces the entry in place when the key is present
(keys of a JavaScript `Map` stay unique), appends otherwise. -/
def mapSet (m : CacheMap α) (key : String) (v : CacheEntry α) : CacheMap α :=
  if m.any (fun e => e.1 == key) then
    m.map (fun e => if e.1 == key then (key, v) else e)
  else m ++ [(key, v)]

/-- `Map.prototype.delete`. -/
def mapDelete (m : CacheMap α) (key : String) : CacheMap α :=
  m.filter (fun e => !(e.1 == key))

/-- `getCachedQBData(key)` at current time `now`: the returned payload (or
`null`) together with the cache afterwards (an expired entry is deleted on
the way out). -/
def getCachedQBData (cache : CacheMap α) (now : Int) (key : String) :
    Option α × CacheMap α :=
  match mapGet cache key with
  | none => (none, cache)
  | some entry =>
    if now - entry.timestamp > CACHE_TTL_MS then (none, mapDelete cache key)
    else (some entry.data, cache)

/-- `cleanExpiredCache()` at current time `now`. -/
def cleanExpiredCache (cache : CacheMap α) (now : Int) : CacheMap α :=
  cache.filter (fun e => !decide (now - e.2.timestamp > CACHE_TTL_MS))

/-- `setCachedQBData(key, data)` at current time `now`: insert the entry,
then sweep expired entries once the map holds more than 50. -/
def setCachedQBData (cache : CacheMap α) (now : Int) (key : String) (data : α) :
    CacheMap α :=
  let c := mapSet cache key ⟨data, now⟩
  if c.length > 50 then cleanExpiredCache c now else c

/-! ## Reconciliation (`quickbooksComparison` in the marketer-profitability
route, single-location branch) -/

/-- One element of the `qbRevenue` array joined against the internal period
groups (the single-location branch types each item with product and shipping
splits). -/
structure QBPeriodData where
  period : String
  revenue : Rat
  product_revenue : Rat
  shipping_revenue : Rat
  cost_of_goods : Rat
  gross_profit : Rat
deriving Repr, DecidableEq

/-- The `totals` object of one internal period group. -/
structure PeriodGroupTotals where
  transaction_count : Int
  acquisition_cost : Rat
  shipping_charged_to_pt : Rat
  shipping_cost_actual : Rat
  total_pt_paid : Rat
  profit_after_product : Rat
  net_profit : Rat
deriving Repr, DecidableEq

/-- One internal period group (the fields the comparison reads). -/
structure PeriodGroup where
  period : String
  totals : PeriodGroupTotals
deriving Repr, DecidableEq

/-- One row of `quickbooksComparison`. -/
structure ComparisonRow where
  period : String
  internal_revenue : Rat
  quickbooks_revenue : Rat
  quickbooks_product_revenue : Rat
  quickbooks_shipping_revenue : Rat
  quickbooks_cogs : Rat
  quickbooks_gross_profit : Rat
  variance : Rat
  variance_percentage : Rat
deriving Repr, DecidableEq

/-- `new Map(qbRevenue.map(item => [item.period, item])).get(k)`: with
duplicate period labels the later insertion wins, hence the last matching
element. -/
def qbByPeriodGet (qbRevenue : List QBPeriodData) (k : String) :
    Option QBPeriodData :=
  qbRevenue.reverse.find? (fun item => item.period == k)

/-- The body of `periodGroups.map(...)` building one comparison row. -/
def comparisonRowFor (qbRevenue : List QBPeriodData) (group : PeriodGroup) :
    ComparisonRow :=
  match qbByPeriodGet qbRevenue group.period with
  | none =>
    { period := group.period
      internal_revenue := group.totals.total_pt_paid
      quickbooks_revenue := 0
      quickbooks_product_revenue := 0
      quickbooks_shipping_revenue := 0
      quickbooks_cogs := 0
      quickbooks_gross_profit := 0
      variance := group.totals.total_pt_paid
      variance_percentage := 0 }
  | some qbPeriod =>
    let variance := group.totals.total_pt_paid - qbPeriod.revenue
    { period := group.period
      internal_revenue := group.totals.total_pt_paid
      quickbooks_revenue := qbPeriod.revenue
      quickbooks_product_revenue := qbPeriod.product_revenue
      quickbooks_shipping_revenue := qbPeriod.shipping_revenue
      quickbooks_cogs := qbPeriod.cost_of_goods
      quickbooks_gross_profit := qbPeriod.gross_profit
      variance := variance
      variance_percentage :=
        if qbPeriod.revenue ≠ 0 then variance / qbPeriod.revenue * 100 else 0 }

/-- `quickbooksComparison = periodGroups.map(group => ...)`. -/
def quickbooksComparison (periodGroups : List PeriodGroup)
    (qbRevenue : List QBPeriodData) : List ComparisonRow :=
  periodGroups.map (comparisonRowFor qbRevenue)

/-! ## Theorems -/

/-- C1: for start 2024-01-15, end 2024-03-10, monthly granularity (a range
with `start_date ≤ end_date`), the windows `generatePeriods` returns are not
contiguous and their union does not equal `[start_date, end_date]`: every
window's `start` is the first day of the unit *after* the one the window is
labelled with, because the source advances `current` before pushing the
window.  In particular the first window is `[2024-02-01, 2024-01-31]`
instead of starting at `2024-01-15`, so the days 2024-01-15 through
2024-01-31 are covered by no window. -/
theorem generatePeriods_not_tiling_at_scenarioA :
    (generatePeriods (mkDate 2024 0 15) (mkDate 2024 2 10) "monthly").map
        (fun w => (w.start, w.end_)) =
      [("2024-02-01", "2024-01-31"), ("2024-03-01", "2024-02-29"),
       ("2024-04-01", "2024-03-10")] ∧
    formatDate (mkDate 2024 0 15) = "2024-01-15" ∧
    ((generatePeriods (mkDate 2024 0 15) (mkDate 2024 2 10) "monthly").map
        (fun w => w.start)).head? ≠ some "2024-01-15" := by
  refine ⟨by decide, by decide, by decide⟩

/-- C2: on granularity `monthly`, start `2024-01-15`, end `2024-03-10`,
`generatePeriods` does emit exactly three windows labelled `2024-01`,
`2024-02`, `2024-03` whose last end is `2024-03-10`, but the first window's
start is `2024-02-01`, not `2024-01-15`, and each later window starts on the
first day of the unit *after* its own (the `2024-02` window starts
`2024-03-01`), refuting both the scenario and the general mid-unit rule. -/
theorem generatePeriods_scenarioA_starts_shifted :
    (generatePeriods (mkDate 2024 0 15) (mkDate 2024 2 10) "monthly").map
        PeriodWindow.label = ["2024-01", "2024-02", "2024-03"] ∧
    (generatePeriods (mkDate 2024 0 15) (mkDate 2024 2 10) "monthly").map
        PeriodWindow.end_ = ["2024-01-31", "2024-02-29", "2024-03-10"] ∧
    (generatePeriods (mkDate 2024 0 15) (mkDate 2024 2 10) "monthly").map
        PeriodWindow.start = ["2024-02-01", "2024-03-01", "2024-04-01"] ∧
    (generatePeriods (mkDate 2024 0 15) (mkDate 2024 2 10) "monthly").map
        PeriodWindow.start ≠ ["2024-01-15", "2024-02-01", "2024-03-01"] := by
  refine ⟨by decide, by decide, by decide, by decide⟩

/-- C10: the internal ledger's period labelling agrees with the bucketer's.
`getPeriodKey y m g` (ledger side, `m` 1-based in 1..12) equals
`labelFor g y (m - 1)`, the label `generatePeriods` computes for a window
whose cursor lies in month `m` of year `y` (`labelFor` takes the 0-based
`getMonth` value), for every granularity including the shared default
branch. -/
theorem getPeriodKey_matches_bucketer_label (granularity : String)
    (year month : Int) (h1 : 1 ≤ month) (h2 : month ≤ 12) :
    getPeriodKey year month granularity = labelFor granularity year (month - 1) := by
  unfold getPeriodKey labelFor
  by_cases hy : granularity = "yearly"
  · simp [hy]
  · by_cases hq : granularity = "quarterly"
    · have hdiv : (month + 2).fdiv 3 = (month - 1).fdiv 3 + 1 := by
        rw [Int.fdiv_eq_ediv _ (by norm_num), Int.fdiv_eq_ediv _ (by norm_num)]
        omega
      simp [hy, hq, hdiv]
    · have hm : month - 1 + 1 = month := by omega
      simp [hy, hq, hm]

/-- Witness for C10 at a concrete instance (quarterly, July 2024: the ledger
key `2024-Q3` matches the bucketer label for 0-based month 6). -/
theorem getPeriodKey_matches_bucketer_label_witness :
    (1 : Int) ≤ 7 ∧ (7 : Int) ≤ 12 ∧
      getPeriodKey 2024 7 "quarterly" = labelFor "quarterly" 2024 (7 - 1) :=
  ⟨by decide, by decide,
    getPeriodKey_matches_bucketer_label "quarterly" 2024 7 (by decide) (by decide)⟩

/-- C3: every reconciliation row follows the variance policy.  For the `i`-th
internal period group, the `i`-th row of `quickbooksComparison` carries the
group's label and internal revenue; when no external entry shares the label,
external revenue, COGS and gross profit are reported as 0, the variance is
the full internal revenue and the variance percentage 0; when an external
entry matches, the variance is internal minus external revenue and the
variance percentage is `variance / external revenue * 100`, or 0 when the
external revenue is 0. -/
theorem quickbooksComparison_variance_policy (periodGroups : List PeriodGroup)
    (qbRevenue : List QBPeriodData) (i : Nat) (group : PeriodGroup)
    (hi : periodGroups[i]? = some group) :
    ∃ row, (quickbooksComparison periodGroups qbRevenue)[i]? = some row ∧
      row.period = group.period ∧
      row.internal_revenue = group.totals.total_pt_paid ∧
      (qbByPeriodGet qbRevenue group.period = none →
        row.quickbooks_revenue = 0 ∧ row.quickbooks_cogs = 0 ∧
        row.quickbooks_gross_profit = 0 ∧
        row.variance = group.totals.total_pt_paid ∧
        row.variance_percentage = 0) ∧
      (∀ qbPeriod, qbByPeriodGet qbRevenue group.period = some qbPeriod →
        row.quickbooks_revenue = qbPeriod.revenue ∧
        row.quickbooks_cogs = qbPeriod.cost_of_goods ∧
        row.quickbooks_gross_profit = qbPeriod.gross_profit ∧
        row.variance = group.totals.total_pt_paid - qbPeriod.revenue ∧
        (qbPeriod.revenue ≠ 0 →
          row.variance_percentage =
            (group.totals.total_pt_paid - qbPeriod.revenue) / qbPeriod.revenue * 100) ∧
        (qbPeriod.revenue = 0 → row.variance_percentage = 0)) := by
  refine ⟨comparisonRowFor qbRevenue group, ?_, ?_⟩
  · simp [quickbooksComparison, List.getElem?_map, hi]
  · constructor
    · cases h : qbByPeriodGet qbRevenue group.period <;>
        simp [comparisonRowFor, h]
    constructor
    · cases h : qbByPeriodGet qbRevenue group.period <;>
        simp [comparisonRowFor, h]
    constructor
    · intro h
      simp [comparisonRowFor, h]
    · intro qbPeriod h
      by_cases hz : qbPeriod.revenue = 0
      · simp [comparisonRowFor, h, hz]
      · simp [comparisonRowFor, h, hz]

/-- Witness for C3, instantiating end-to-end scenario B: one internal group
for `2024-01` with `total_pt_paid = 10000` and an external list with no
matching period yields a row with external revenue 0, variance 10000 and
variance percentage 0. -/
theorem quickbooksComparison_variance_policy_witness :
    ∃ row,
      (quickbooksComparison
          [{ period := "2024-01",
             totals := { transaction_count := 3, acquisition_cost := 0,
                         shipping_charged_to_pt := 0, shipping_cost_actual := 0,
                         total_pt_paid := 10000, profit_after_product := 0,
                         net_profit := 0 } }]
          [])[0]? = some row ∧
      row.quickbooks_revenue = 0 ∧ row.variance = 10000 ∧
      row.variance_percentage = 0 := by
  obtain ⟨row, hrow, -, hrev, hnone, -⟩ :=
    quickbooksComparison_variance_policy
      [{ period := "2024-01",
         totals := { transaction_count := 3, acquisition_cost := 0,
                     shipping_charged_to_pt := 0, shipping_cost_actual := 0,
                     total_pt_paid := 10000, profit_after_product := 0,
                     net_profit := 0 } }]
      [] 0 _ rfl
  obtain ⟨h1, -, -, h2, h3⟩ := hnone rfl
  exact ⟨row, hrow, h1, by rw [h2]; rfl, h3⟩

/-- C4: with a stored credential present, `getValidTokens` performs a token
refresh exactly when the stored `expires_at` is less than 5 minutes after
the current time; when it refreshes, the refreshed credential is upserted
(the stored row becomes `storeTokens` of the returned credential, replacing
the old row) before being returned; otherwise the stored credential is
returned unchanged and nothing is written. -/
theorem getValidTokens_some_eq (row : TokenRow) (now : Int)
    (resp : RefreshResponse) (location : String) :
    getValidTokens (some row) now resp location =
      if row.expires_at < now + 5 * 60 * 1000 then
        { result := some { refreshAccessToken resp now location with
                             realm_id := row.realm_id }
          stored := some (storeTokens
            { refreshAccessToken resp now location with realm_id := row.realm_id } now)
          didRefresh := true }
      else ⟨some (tokensOfRow row), some row, false⟩ := rfl

theorem getValidTokens_refresh_policy (row : TokenRow) (now : Int)
    (resp : RefreshResponse) (location : String) :
    ((getValidTokens (some row) now resp location).didRefresh = true ↔
      row.expires_at < now + 5 * 60 * 1000) ∧
    (row.expires_at < now + 5 * 60 * 1000 →
      ∃ t, (getValidTokens (some row) now resp location).result = some t ∧
        (getValidTokens (some row) now resp location).stored =
          some (storeTokens t now)) ∧
    (¬ row.expires_at < now + 5 * 60 * 1000 →
      (getValidTokens (some row) now resp location).result = some (tokensOfRow row) ∧
      (getValidTokens (some row) now resp location).stored = some row) := by
  rw [getValidTokens_some_eq]
  by_cases h : row.expires_at < now + 5 * 60 * 1000
  · rw [if_pos h]
    exact ⟨⟨fun _ => h, fun _ => rfl⟩,
      fun _ => ⟨{ refreshAccessToken resp now location with realm_id := row.realm_id },
        rfl, rfl⟩,
      fun hc => absurd h hc⟩
  · rw [if_neg h]
    exact ⟨⟨fun hb => absurd hb (by simp), fun hc => absurd hc h⟩,
      fun hc => absurd hc h, fun _ => ⟨rfl, rfl⟩⟩

/-- Witness for C4, instantiating end-to-end scenario C at `now = 0`: a
credential expiring 2 minutes in the future (120000 ms) is refreshed, one
expiring 10 minutes in the future (600000 ms) is not. -/
theorem getValidTokens_refresh_policy_witness :
    (getValidTokens
        (some { location := "MedRock FL", access_token := "a", refresh_token := "r",
                expires_at := 120000, realm_id := "91", company_name := none,
                updated_at := 0 })
        0 { access_token := "a2", refresh_token := "r2", expires_in := 3600 }
        "MedRock FL").didRefresh = true ∧
    (getValidTokens
        (some { location := "MedRock FL", access_token := "a", refresh_token := "r",
                expires_at := 600000, realm_id := "91", company_name := none,
                updated_at := 0 })
        0 { access_token := "a2", refresh_token := "r2", expires_in := 3600 }
        "MedRock FL").didRefresh = false :=
  ⟨(getValidTokens_refresh_policy
      { location := "MedRock FL", access_token := "a", refresh_token := "r",
        expires_at := 120000, realm_id := "91", company_name := none, updated_at := 0 }
      0 { access_token := "a2", refresh_token := "r2", expires_in := 3600 }
      "MedRock FL").1.mpr (by decide),
   by decide⟩

/-- C9 counterexample: a refresh inside `getValidTokens` does not carry every
stored field other than the token pair and expiry over from the previous
state.  Starting from a stored row whose `company_name` is `Custom Name`,
the row persisted after the refresh has `company_name` reset to the
location's default mapping `Medrock FLORIDA` (the refreshed object carries
no company name, so `storeTokens` falls back to `LOCATION_MAPPING`). -/
theorem getValidTokens_refresh_drops_company_name :
    ((getValidTokens
        (some { location := "MedRock FL", access_token := "a", refresh_token := "r",
                expires_at := 120000, realm_id := "9999",
                company_name := some "Custom Name", updated_at := 17 })
        0 { access_token := "a2", refresh_token := "r2", expires_in := 3600 }
        "MedRock FL").didRefresh = true) ∧
    ((getValidTokens
        (some { location := "MedRock FL", access_token := "a", refresh_token := "r",
                expires_at := 120000, realm_id := "9999",
                company_name := some "Custom Name", updated_at := 17 })
        0 { access_token := "a2", refresh_token := "r2", expires_in := 3600 }
        "MedRock FL").stored.map TokenRow.company_name)
      = some (some "Medrock FLORIDA") ∧
    some (some "Medrock FLORIDA") ≠ some (some "Custom Name") := by
  refine ⟨by decide, by decide, by decide⟩

/-- C9 as amended: a refresh inside `getValidTokens` preserves the
credential's `realm_id` (both the returned credential and the persisted row
keep the pre-refresh `realm_id`, even though the raw token exchange yields
an empty one) and keeps the location; `access_token`, `refresh_token` and
`expires_at` are taken from the refresh response; but `company_name` is
reset to the location's default `LOCATION_MAPPING` entry and `updated_at` to
the current time, rather than being carried over from the previous stored
state. -/
theorem getValidTokens_refresh_preserves_realm_id (row : TokenRow) (now : Int)
    (resp : RefreshResponse) (location : String)
    (h : row.expires_at < now + 5 * 60 * 1000) :
    ∃ t newRow,
      (getValidTokens (some row) now resp location).result = some t ∧
      (getValidTokens (some row) now resp location).stored = some newRow ∧
      t.realm_id = row.realm_id ∧ newRow.realm_id = row.realm_id ∧
      t.location = location ∧ newRow.location = location ∧
      newRow.access_token = resp.access_token ∧
      newRow.refresh_token = resp.refresh_token ∧
      newRow.expires_at = now + resp.expires_in * 1000 ∧
      newRow.company_name = LOCATION_MAPPING location ∧
      newRow.updated_at = now := by
  rw [getValidTokens_some_eq, if_pos h]
  exact ⟨{ refreshAccessToken resp now location with realm_id := row.realm_id },
    storeTokens { refreshAccessToken resp now location with realm_id := row.realm_id }
      now, rfl, rfl, rfl, rfl, rfl, rfl, rfl, rfl, rfl, rfl, rfl⟩

/-- Witness for the amended C9 at a concrete refresh. -/
theorem getValidTokens_refresh_preserves_realm_id_witness :
    (120000 : Int) < 0 + 5 * 60 * 1000 ∧
    ∃ t newRow,
      (getValidTokens
          (some { location := "MedRock TX", access_token := "a", refresh_token := "r",
                  expires_at := 120000, realm_id := "777",
                  company_name := some "Old", updated_at := 9 })
          0 { access_token := "a2", refresh_token := "r2", expires_in := 3600 }
          "MedRock TX").result = some t ∧
      (getValidTokens
          (some { location := "MedRock TX", access_token := "a", refresh_token := "r",
                  expires_at := 120000, realm_id := "777",
                  company_name := some "Old", updated_at := 9 })
          0 { access_token := "a2", refresh_token := "r2", expires_in := 3600 }
          "MedRock TX").stored = some newRow ∧
      t.realm_id = "777" ∧ newRow.realm_id = "777" ∧
      t.location = "MedRock TX" ∧ newRow.location = "MedRock TX" ∧
      newRow.access_token = "a2" ∧ newRow.refresh_token = "r2" ∧
      newRow.expires_at = 0 + 3600 * 1000 ∧
      newRow.company_name = LOCATION_MAPPING "MedRock TX" ∧
      newRow.updated_at = 0 :=
  ⟨by decide,
    getValidTokens_refresh_preserves_realm_id
      { location := "MedRock TX", access_token := "a", refresh_token := "r",
        expires_at := 120000, realm_id := "777", company_name := some "Old",
        updated_at := 9 }
      0 { access_token := "a2", refresh_token := "r2", expires_in := 3600 }
      "MedRock TX" (by decide)⟩

/-- C5: the report extractors are total functions of the report tree (they
are definable without any error case) and follow the 0-on-missing policy:
when no row matches the Income/Revenue section predicate (respectively the
COGS predicate), the result is the number 0; when the section is found but
its summary carries no column array, the result is 0; and otherwise the
result is `parseFloat` of the last summary column's value (defaulted to
`"0"` when absent or empty). -/
theorem extractReport_zero_on_missing (report : Report) :
    ((∀ row ∈ rowsOf report, ¬ isIncomeRow row) →
      extractRevenueFromReport report = some 0) ∧
    (∀ sec, (rowsOf report).find? isIncomeRow = some sec →
      (sec.Summary.bind RowSummary.ColData = none →
        extractRevenueFromReport report = some 0) ∧
      (∀ cols, sec.Summary.bind RowSummary.ColData = some cols →
        extractRevenueFromReport report = jsParseFloat (lastColValue cols))) ∧
    ((∀ row ∈ rowsOf report, ¬ isCOGSRow row) →
      extractCOGSFromReport report = some 0) ∧
    (∀ sec, (rowsOf report).find? isCOGSRow = some sec →
      (sec.Summary.bind RowSummary.ColData = none →
        extractCOGSFromReport report = some 0) ∧
      (∀ cols, sec.Summary.bind RowSummary.ColData = some cols →
        extractCOGSFromReport report = jsParseFloat (lastColValue cols))) := by
  refine ⟨?_, ?_, ?_, ?_⟩
  · intro hnone
    have h : (rowsOf report).find? isIncomeRow = none :=
      List.find?_eq_none.mpr (by simpa using hnone)
    simp [extractRevenueFromReport, h]
  · intro sec hsec
    refine ⟨fun hcols => ?_, fun cols hcols => ?_⟩ <;>
      simp [extractRevenueFromReport, hsec, hcols]
  · intro hnone
    have h : (rowsOf report).find? isCOGSRow = none :=
      List.find?_eq_none.mpr (by simpa using hnone)
    simp [extractCOGSFromReport, h]
  · intro sec hsec
    refine ⟨fun hcols => ?_, fun cols hcols => ?_⟩ <;>
      simp [extractCOGSFromReport, hsec, hcols]

/-- Witness for C5 on a well-formed-but-empty report tree (a report whose
`Rows` object holds no row array): both extractors return 0. -/
theorem extractReport_zero_on_missing_witness :
    ((∀ row ∈ rowsOf { Rows := some { Row := none } }, ¬ isIncomeRow row) ∧
      extractRevenueFromReport { Rows := some { Row := none } } = some 0) ∧
    ((∀ row ∈ rowsOf { Rows := some { Row := none } }, ¬ isCOGSRow row) ∧
      extractCOGSFromReport { Rows := some { Row := none } } = some 0) :=
  ⟨⟨by simp [rowsOf],
    (extractReport_zero_on_missing { Rows := some { Row := none } }).1
      (by simp [rowsOf])⟩,
   ⟨by simp [rowsOf],
    (extractReport_zero_on_missing { Rows := some { Row := none } }).2.2.1
      (by simp [rowsOf])⟩⟩

/-- C6: a failure of the per-location fetch never aborts the multi-location
aggregation.  Whatever subset of locations fails, `getRevenueAllLocations`
returns one entry per connected location, in order; a failed location
contributes the empty list (hence zero to every per-period sum) and a
successful location contributes exactly its fetched data, unaffected by the
other locations' failures. -/
theorem getRevenueAllLocations_partial_failure (locations : List String)
    (fetch : String → Except String (List PeriodFinancials)) :
    (getRevenueAllLocations locations fetch).map Prod.fst = locations ∧
    (∀ location, location ∈ locations →
      ∃ d, (location, d) ∈ getRevenueAllLocations locations fetch) ∧
    (∀ location d, (location, d) ∈ getRevenueAllLocations locations fetch →
      location ∈ locations ∧
      (∀ e, fetch location = Except.error e → d = []) ∧
      (∀ v, fetch location = Except.ok v → d = v)) := by
  refine ⟨?_, ?_, ?_⟩
  · rw [getRevenueAllLocations, List.map_map]
    exact List.map_congr_left (fun a _ => rfl) |>.trans (List.map_id _)
  · intro location hmem
    exact ⟨_, List.mem_map_of_mem _ hmem⟩
  · intro location d hmem
    obtain ⟨a, ha, heq⟩ := List.mem_map.mp hmem
    obtain ⟨rfl, rfl⟩ : a = location ∧
        (match fetch a with
          | Except.ok revenue => revenue
          | Except.error _ => []) = d := by
      exact ⟨congrArg Prod.fst heq, congrArg Prod.snd heq⟩
    refine ⟨ha, fun e he => ?_, fun v hv => ?_⟩
    · rw [he]
    · rw [hv]

/-- Witness for C6: two connected locations, the second failing, still yield
one entry per location, with the failing one empty and the first one's data
intact. -/
theorem getRevenueAllLocations_partial_failure_witness :
    ("MedRock FL" ∈ ["MedRock FL", "MedRock TN"]) ∧
    (∃ d, ("MedRock FL", d) ∈
      getRevenueAllLocations ["MedRock FL", "MedRock TN"]
        (fun location =>
          if location = "MedRock FL" then
            Except.ok [{ period := "2024-01", revenue := 5, cost_of_goods := 2,
                         gross_profit := 3 }]
          else Except.error "QB API error for MedRock TN: 500 boom")) ∧
    (getRevenueAllLocations ["MedRock FL", "MedRock TN"]
        (fun location =>
          if location = "MedRock FL" then
            Except.ok [{ period := "2024-01", revenue := 5, cost_of_goods := 2,
                         gross_profit := 3 }]
          else Except.error "QB API error for MedRock TN: 500 boom")).map
        Prod.fst = ["MedRock FL", "MedRock TN"] :=
  ⟨by decide,
   ((getRevenueAllLocations_partial_failure ["MedRock FL", "MedRock TN"]
      (fun location =>
        if location = "MedRock FL" then
          Except.ok [{ period := "2024-01", revenue := 5, cost_of_goods := 2,
                       gross_profit := 3 }]
        else Except.error "QB API error for MedRock TN: 500 boom")).2.1
      "MedRock FL" (by decide)),
   ((getRevenueAllLocations_partial_failure ["MedRock FL", "MedRock TN"]
      (fun location =>
        if location = "MedRock FL" then
          Except.ok [{ period := "2024-01", revenue := 5, cost_of_goods := 2,
                       gross_profit := 3 }]
        else Except.error "QB API error for MedRock TN: 500 boom")).1)⟩

/-- C7 counterexample: `qbRequest` does not raise a distinguished
`Unauthorized` error on HTTP 401.  A 401 response and a 500 response are
handled by the same branch and produce the same single generic error shape
(the template message with the status and body interpolated); the 401 error
carries no `Unauthorized` marker, so the two failure kinds are not
distinguishable by the caller other than by parsing the embedded status. -/
theorem qbRequest_401_not_distinguished :
    qbRequestHandle "MedRock FL" 401 "token revoked" "payload" =
      (Except.error (qbErrorMessage "MedRock FL" 401 "token revoked") :
        Except String String) ∧
    qbRequestHandle "MedRock FL" 500 "server exploded" "payload" =
      (Except.error (qbErrorMessage "MedRock FL" 500 "server exploded") :
        Except String String) ∧
    qbErrorMessage "MedRock FL" 401 "token revoked" =
      "QB API error for MedRock FL: 401 token revoked" ∧
    jsIncludes (qbErrorMessage "MedRock FL" 401 "token revoked") "Unauthorized"
      = false := by
  refine ⟨rfl, rfl, by decide, by decide⟩

/-- C7 as amended: `qbRequest` fails with one uniform generic error for
every non-2xx response, 401 included; the thrown message is the single
template `QB API error for {location}: {status} {body}`, so a caller can
tell a 401 from another failure only by the status embedded in the message,
not by a distinct error kind. -/
theorem qbRequest_uniform_generic_error (location : String) (status : Int)
    (body : String) (json : α) (h : responseOk status = false) :
    qbRequestHandle location status body json =
      Except.error (qbErrorMessage location status body) := by
  simp [qbRequestHandle, h]

/-- Witness for the amended C7 at a concrete 401 response. -/
theorem qbRequest_uniform_generic_error_witness :
    responseOk 401 = false ∧
    qbRequestHandle "MedRock TN" 401 "revoked" (42 : Nat) =
      Except.error (qbErrorMessage "MedRock TN" 401 "revoked") :=
  ⟨by decide, qbRequest_uniform_generic_error "MedRock TN" 401 "revoked" 42 (by decide)⟩

/-- `find?` still finds the same element after a `filter` that keeps it:
the first `p`-match of `l` is also the first `p`-match of `l.filter q`
whenever it satisfies `q` (everything `filter` may remove before it fails
`q` or `p` alike). -/
theorem find?_filter_of_found {β : Type} (l : List β) (p q : β → Bool) (a : β)
    (h : l.find? p = some a) (hq : q a = true) :
    (l.filter q).find? p = some a := by
  induction l with
  | nil => simp at h
  | cons b bs ih =>
    by_cases hb : p b = true
    · have hab : b = a := by
        have hcons := List.find?_cons_of_pos (p := p) bs hb
        rw [hcons] at h
        exact Option.some.inj h
      subst hab
      rw [List.filter_cons_of_pos hq, List.find?_cons_of_pos _ hb]
    · have h' : bs.find? p = some a := by
        rwa [List.find?_cons_of_neg _ (by simpa using hb)] at h
      by_cases hqb : q b = true
      · rw [List.filter_cons_of_pos hqb, List.find?_cons_of_neg _ (by simpa using hb)]
        exact ih h'
      · rw [List.filter_cons_of_neg (by simpa using hqb)]
        exact ih h'

/-- After replacing the entry for `key` in place, the map lookup on `key`
yields the new entry. -/
theorem find?_replace_entry (m : CacheMap α) (key : String) (v : CacheEntry α)
    (h : m.any (fun e => e.1 == key) = true) :
    ((m.map (fun e => if e.1 == key then (key, v) else e)).find?
        (fun e => e.1 == key)) = some (key, v) := by
  induction m with
  | nil => simp at h
  | cons b bs ih =>
    simp only [List.map_cons]
    by_cases hb : (b.1 == key) = true
    · rw [if_pos hb]
      exact List.find?_cons_of_pos _ (by simp)
    · rw [if_neg hb, List.find?_cons_of_neg _ (by simpa using hb)]
      apply ih
      simpa [List.any_cons, hb] using h

/-- When `key` is absent, the appended fresh entry is what the lookup on
`key` finds. -/
theorem find?_append_fresh (m : CacheMap α) (key : String) (v : CacheEntry α)
    (h : m.any (fun e => e.1 == key) = false) :
    ((m ++ [(key, v)]).find? (fun e => e.1 == key)) = some (key, v) := by
  induction m with
  | nil => exact List.find?_cons_of_pos _ (by simp)
  | cons b bs ih =>
    have hb : (b.1 == key) = false := by
      by_contra hb
      simp [List.any_cons, eq_true_of_ne_false hb] at h
    rw [List.cons_append, List.find?_cons_of_neg _ (by simpa using hb)]
    exact ih (by simpa [List.any_cons, hb] using h)

/-- `Map.set` followed by `Map.get` on the same key yields the new entry. -/
theorem mapGet_mapSet (m : CacheMap α) (key : String) (v : CacheEntry α) :
    mapGet (mapSet m key v) key = some v := by
  unfold mapGet mapSet
  by_cases h : m.any (fun e => e.1 == key) = true
  · rw [if_pos h, find?_replace_entry m key v h]
    rfl
  · rw [if_neg h, find?_append_fresh m key v (by rwa [Bool.not_eq_true] at h)]
    rfl

/-- The cleanup sweep keeps an unexpired entry reachable. -/
theorem mapGet_cleanExpired (c : CacheMap α) (now : Int) (key : String)
    (e : CacheEntry α) (h : mapGet c key = some e)
    (hfresh : ¬ now - e.timestamp > CACHE_TTL_MS) :
    mapGet (cleanExpiredCache c now) key = some e := by
  unfold mapGet at h ⊢
  unfold cleanExpiredCache
  obtain ⟨pair, hp, hsnd⟩ : ∃ p, c.find? (fun x => x.1 == key) = some p ∧ p.2 = e := by
    cases hf : c.find? (fun x => x.1 == key) with
    | none => rw [hf] at h; simp at h
    | some p =>
      rw [hf] at h
      exact ⟨p, rfl, by simpa using h⟩
  rw [find?_filter_of_found _ _ _ _ hp (by simp [hsnd, hfresh])]
  simp [hsnd]

/-- `setCachedQBData` leaves its own fresh entry in the map, whether or not
the size-triggered sweep runs. -/
theorem mapGet_setCachedQBData (cache : CacheMap α) (now : Int) (key : String)
    (data : α) :
    mapGet (setCachedQBData cache now key data) key = some ⟨data, now⟩ := by
  unfold setCachedQBData
  by_cases hlen : (mapSet cache key ⟨data, now⟩).length > 50
  · rw [if_pos hlen]
    refine mapGet_cleanExpired _ now key _ (mapGet_mapSet cache key _) ?_
    have : now - now = 0 := by omega
    simp only [this, CACHE_TTL_MS]
    omega
  · rw [if_neg hlen]
    exact mapGet_mapSet cache key _

/-- C8: after `set(key, payload)` at time `t`, a `get(key)` at time `t1`
returns the payload whenever less than the 1-hour TTL has elapsed, and
misses (`none`) once the age exceeds the TTL (deleting the entry); and two
consecutive `get(key)` calls with no intervening `set`, both within the TTL
window, return the same payload value. -/
theorem cache_ttl_roundtrip (cache : CacheMap α) (t : Int) (key : String)
    (payload : α) (t1 t2 : Int) :
    (0 ≤ t1 - t → t1 - t < CACHE_TTL_MS →
      (getCachedQBData (setCachedQBData cache t key payload) t1 key).1 =
        some payload) ∧
    (t1 - t > CACHE_TTL_MS →
      (getCachedQBData (setCachedQBData cache t key payload) t1 key).1 = none) ∧
    (0 ≤ t1 - t → t1 ≤ t2 → t2 - t < CACHE_TTL_MS →
      (getCachedQBData (setCachedQBData cache t key payload) t1 key).1 =
        some payload ∧
      (getCachedQBData
          (getCachedQBData (setCachedQBData cache t key payload) t1 key).2
          t2 key).1 = some payload) := by
  have hget := mapGet_setCachedQBData cache t key payload
  have hhit : ∀ s : Int, ¬ s - t > CACHE_TTL_MS →
      getCachedQBData (setCachedQBData cache t key payload) s key =
        (some payload, setCachedQBData cache t key payload) := by
    intro s hs
    unfold getCachedQBData
    rw [hget]
    simp only [if_neg hs]
  refine ⟨?_, ?_, ?_⟩
  · intro h0 h1
    rw [hhit t1 (by omega)]
  · intro h1
    unfold getCachedQBData
    rw [hget]
    simp only [if_pos h1]
  · intro h0 h12 h2
    have ht1 : ¬ t1 - t > CACHE_TTL_MS := by omega
    have ht2 : ¬ t2 - t > CACHE_TTL_MS := by omega
    rw [hhit t1 ht1]
    exact ⟨rfl, by rw [hhit t2 ht2]⟩

/-- Witness for C8 on a concrete run: a payload set at time 0 is still
returned 1000 ms later, twice in a row, and is gone 3 600 001 ms later. -/
theorem cache_ttl_roundtrip_witness :
    ((0 : Int) ≤ 1000 - 0 ∧ (1000 : Int) - 0 < CACHE_TTL_MS ∧
      (getCachedQBData
          (setCachedQBData ([] : CacheMap Nat) 0 "all:2024-01-01:2024-03-10:monthly" 7)
          1000 "all:2024-01-01:2024-03-10:monthly").1 = some 7) ∧
    ((3600001 : Int) - 0 > CACHE_TTL_MS ∧
      (getCachedQBData
          (setCachedQBData ([] : CacheMap Nat) 0 "all:2024-01-01:2024-03-10:monthly" 7)
          3600001 "all:2024-01-01:2024-03-10:monthly").1 = none) :=
  ⟨⟨by decide, by decide,
    (cache_ttl_roundtrip ([] : CacheMap Nat) 0 "all:2024-01-01:2024-03-10:monthly"
        7 1000 1000).1 (by decide) (by decide)⟩,
   ⟨by decide,
    (cache_ttl_roundtrip ([] : CacheMap Nat) 0 "all:2024-01-01:2024-03-10:monthly"
        7 3600001 3600001).2.1 (by decide)⟩⟩

end MedRock
